import Mathlib

/-!
# Movie seat booking: store operations and HTTP handlers

A shallow embedding of `store.go` (the `Store` methods `GetMovies`,
`GetMovieAvailability`, `BookSeat`) and of `RESTful API/main.go` (the three
handlers, `getMovieID`, `writeJSON`).

The PostgreSQL database behind `*sql.DB` is an explicit value `DB` holding the
rows of the two tables the SQL text names.  Every call that reaches the
database may fail for reasons outside the program (connection loss, timeouts,
constraint violations...).  Those failures are inputs of the embedding: a
record of optional error texts, one per database call of the operation.  An
error value is represented by the text `err.Error()` returns, which is all the
callers in `main.go` ever look at; `sql.ErrNoRows`, which `store.go` tests by
identity, is a separate constructor of the query result.

Calls are executed one after another (one operation at a time); the embedding
says nothing about interleavings of concurrent transactions.
-/

namespace MovieBooking

/-! ## Data model (store.go, lines 26-47) -/

/-- Go struct `Movie`, a row of table `movies`. -/
structure Movie where
  ID : Int
  Title : String
  TotalSeats : Int
  AvailableSeats : Int
deriving DecidableEq, Repr

/-- Go struct `Availability`. -/
structure Availability where
  MovieID : Int
  AvailableSeats : Int
deriving DecidableEq, Repr

/-- Go struct `BookingRequest`. -/
structure BookingRequest where
  UserName : String
deriving DecidableEq, Repr

/-- Go struct `BookingReceipt`. -/
structure BookingReceipt where
  BookingID : Int
  MovieID : Int
  UserName : String
  Message : String
deriving DecidableEq, Repr

/-- Row of table `bookings`, with the columns the INSERT statement of
`BookSeat` names: `id`, `movie_id`, `user_name`. -/
structure Booking where
  ID : Int
  MovieID : Int
  UserName : String
deriving DecidableEq, Repr

/-- Contents of the database: the rows of `movies` and of `bookings`, in
storage order.  No key constraint is built in: the SQL statements below are
given their meaning on arbitrary tables. -/
structure DB where
  movies : List Movie
  bookings : List Booking
deriving DecidableEq, Repr

/-- Database calls issued through `database/sql`, recorded in the order the
program makes them. -/
inductive Stmt where
  | begin
  | selectForUpdate (movieID : Int)
  | updateSeats (movieID : Int)
  | insertBooking (movieID : Int) (userName : String)
  | commit
  | rollback
  | selectAvailability (movieID : Int)
  | selectMovies
deriving DecidableEq, Repr

/-- Outcome of `QueryRow(...).Scan(...)`: a scanned value, `sql.ErrNoRows`, or
any other error (given by its text). -/
inductive ScanResult (α : Type) where
  | value (a : α)
  | errNoRows
  | fault (msg : String)
deriving DecidableEq, Repr

deriving instance DecidableEq for Except

/-- What a store method leaves behind: the value or error it returns, the
database contents afterwards, and the database calls it made. -/
structure Outcome (α : Type) where
  result : Except String α
  db : DB
  stmts : List Stmt
deriving DecidableEq

/-! ## Meaning of the SQL statements -/

/-- The first row selected by `WHERE id = $1`, the one `QueryRow(...).Scan`
reads; `none` when the clause selects no row. -/
def DB.movieByID (db : DB) (movieID : Int) : Option Movie :=
  db.movies.find? (fun m => m.ID == movieID)

/-- The query `SELECT available_seats FROM movies WHERE id = $1` (with or
without `FOR UPDATE`) read with `QueryRow(...).Scan`: the first selected row is
scanned, no row gives `sql.ErrNoRows`; `fault` is a failure of the call. -/
def DB.queryAvailableSeats (db : DB) (fault : Option String) (movieID : Int) :
    ScanResult Int :=
  match fault with
  | some msg => .fault msg
  | none =>
    match db.movieByID movieID with
    | none => .errNoRows
    | some m => .value m.AvailableSeats

/-- The statement
`UPDATE movies SET available_seats = available_seats - 1 WHERE id = $1`:
every selected row is decremented, the others are kept. -/
def DB.decrementSeats (db : DB) (movieID : Int) : DB :=
  { db with
    movies := db.movies.map fun m =>
      if m.ID = movieID then { m with AvailableSeats := m.AvailableSeats - 1 } else m }

/-- The statement `INSERT INTO bookings (movie_id, user_name) VALUES ($1, $2)`,
the new row getting the identity `newID` chosen by the database. -/
def DB.insertBooking (db : DB) (newID movieID : Int) (userName : String) : DB :=
  { db with bookings := db.bookings ++ [{ ID := newID, MovieID := movieID, UserName := userName }] }

/-! ## Transactions (`*sql.Tx`) -/

/-- An open transaction: the committed contents it started from, its own
uncommitted view, and the calls made so far. -/
structure Tx where
  committed : DB
  work : DB
  stmts : List Stmt

/-- Failures of the database calls of one `BookSeat`, in program order, and
the identity the database gives to the inserted booking. -/
structure BookFaults where
  beginErr : Option String
  selectErr : Option String
  updateErr : Option String
  insertErr : Option String
  commitErr : Option String
  newID : Int
deriving DecidableEq, Repr

/-- No database call fails; the inserted booking gets identity `newID`. -/
def noFaults (newID : Int) : BookFaults :=
  { beginErr := none, selectErr := none, updateErr := none,
    insertErr := none, commitErr := none, newID := newID }

/-- The call `s.DB.Begin()`. -/
def DB.Begin (db : DB) (fault : Option String) : Except String Tx :=
  match fault with
  | some msg => .error msg
  | none => .ok { committed := db, work := db, stmts := [.begin] }

/-- The call `tx.QueryRow("SELECT ... FOR UPDATE", movieID).Scan(&availableSeats)`. -/
def Tx.queryAvailableSeatsForUpdate (tx : Tx) (fault : Option String) (movieID : Int) :
    ScanResult Int × Tx :=
  (tx.work.queryAvailableSeats fault movieID,
    { tx with stmts := tx.stmts ++ [.selectForUpdate movieID] })

/-- The call `tx.Exec("UPDATE movies ...", movieID)`; the result value is
dropped by the caller, only the error is kept. -/
def Tx.execDecrementSeats (tx : Tx) (fault : Option String) (movieID : Int) :
    Option String × Tx :=
  match fault with
  | some msg => (some msg, { tx with stmts := tx.stmts ++ [.updateSeats movieID] })
  | none =>
    (none, { tx with work := tx.work.decrementSeats movieID,
                     stmts := tx.stmts ++ [.updateSeats movieID] })

/-- The call `tx.QueryRow("INSERT ... RETURNING id", movieID, userName).Scan(&bookingID)`. -/
def Tx.queryInsertBooking (tx : Tx) (fault : Option String) (newID movieID : Int)
    (userName : String) : Except String Int × Tx :=
  match fault with
  | some msg => (.error msg, { tx with stmts := tx.stmts ++ [.insertBooking movieID userName] })
  | none =>
    (.ok newID, { tx with work := tx.work.insertBooking newID movieID userName,
                             stmts := tx.stmts ++ [.insertBooking movieID userName] })

/-- The deferred `tx.Rollback()` on a transaction that was not committed: the
uncommitted view is dropped and the database keeps its committed contents. -/
def Tx.Rollback {α : Type} (tx : Tx) (result : Except String α) : Outcome α :=
  { result := result, db := tx.committed, stmts := tx.stmts ++ [.rollback] }

/-- The call `tx.Commit()`: without a failure the uncommitted view becomes the
contents of the database; with a failure nothing of it does.  Either way the
transaction is finished, so the deferred `Rollback` does nothing more. -/
def Tx.Commit (tx : Tx) (fault : Option String) : Option String × DB × List Stmt :=
  match fault with
  | some msg => (some msg, tx.committed, tx.stmts ++ [.commit])
  | none => (none, tx.work, tx.stmts ++ [.commit])

/-! ## Store methods (store.go) -/

/-- `Store.BookSeat` (store.go, lines 81-127). -/
def BookSeat (db : DB) (env : BookFaults) (movieID : Int) (userName : String) :
    Outcome BookingReceipt :=
  match db.Begin env.beginErr with
  | .error err =>
    { result := .error ("could not start transaction: " ++ err), db := db, stmts := [.begin] }
  | .ok tx =>
    match tx.queryAvailableSeatsForUpdate env.selectErr movieID with
    | (.errNoRows, tx) => tx.Rollback (.error "movie not found")
    | (.fault err, tx) => tx.Rollback (.error ("could not get movie availability: " ++ err))
    | (.value availableSeats, tx) =>
      if availableSeats ≤ 0 then
        tx.Rollback (.error "no available seats")
      else
        match tx.execDecrementSeats env.updateErr movieID with
        | (some err, tx) => tx.Rollback (.error ("could not update movie seats: " ++ err))
        | (none, tx) =>
          match tx.queryInsertBooking env.insertErr env.newID movieID userName with
          | (.error err, tx) => tx.Rollback (.error ("could not create booking: " ++ err))
          | (.ok bookingID, tx) =>
            match tx.Commit env.commitErr with
            | (some err, db', stmts) =>
              { result := .error ("could not commit transaction: " ++ err),
                db := db', stmts := stmts }
            | (none, db', stmts) =>
              { result := .ok { BookingID := bookingID, MovieID := movieID,
                                UserName := userName, Message := "Booking successful" },
                db := db', stmts := stmts }

/-- `Store.GetMovieAvailability` (store.go, lines 67-79); `fault` is a failure
of its one query. -/
def GetMovieAvailability (db : DB) (fault : Option String) (movieID : Int) :
    Outcome Availability :=
  match db.queryAvailableSeats fault movieID with
  | .errNoRows =>
    { result := .error "movie not found", db := db, stmts := [.selectAvailability movieID] }
  | .fault err =>
    { result := .error err, db := db, stmts := [.selectAvailability movieID] }
  | .value availableSeats =>
    { result := .ok { MovieID := movieID, AvailableSeats := availableSeats },
      db := db, stmts := [.selectAvailability movieID] }

/-- Failures of the calls of one `GetMovies`: of `Query`, of `Scan` at the row
with a given index, and an early end of the row iteration (`rows.Next()`
returning false after that many rows; `rows.Err()` is not consulted). -/
structure ListFaults where
  queryErr : Option String
  scanErr : Option (Nat × String)
  rowsEnd : Option Nat
deriving DecidableEq, Repr

/-- The loop `for rows.Next() { ... Scan ... append }` of `GetMovies`, at row
index `i`, with `acc` the movies appended so far. -/
def scanMovies (scanErr : Option (Nat × String)) :
    List Movie → Nat → List Movie → Except String (List Movie)
  | [], _, acc => .ok acc
  | m :: rest, i, acc =>
    match scanErr with
    | some (j, msg) =>
      if i = j then .error msg else scanMovies scanErr rest (i + 1) (acc ++ [m])
    | none => scanMovies scanErr rest (i + 1) (acc ++ [m])

/-- `Store.GetMovies` (store.go, lines 49-65). -/
def GetMovies (db : DB) (env : ListFaults) : Outcome (List Movie) :=
  match env.queryErr with
  | some err => { result := .error err, db := db, stmts := [.selectMovies] }
  | none =>
    let rows := match env.rowsEnd with
      | some n => db.movies.take n
      | none => db.movies
    { result := scanMovies env.scanErr rows 0 [], db := db, stmts := [.selectMovies] }

/-! ## HTTP handlers (RESTful API/main.go) -/

/-- The two failures of `strconv.Atoi`. -/
inductive NumError where
  | ErrSyntax
  | ErrRange
deriving DecidableEq, Repr

/-- Go's `strconv.ParseUint(s, 10, 64)` on the characters after the sign,
scanned left to right with `n` the value so far: a character that is not one
of `0`..`9` is a syntax error, a value that leaves the 64-bit unsigned range is
a range error, reported where the scan meets it. -/
def parseUint : List Char → Nat → Except NumError Nat
  | [], n => .ok n
  | c :: cs, n =>
    if c.isDigit then
      if n ≥ (2 ^ 64 - 1) / 10 + 1 then .error .ErrRange
      else if n * 10 + (c.toNat - 48) > 2 ^ 64 - 1 then .error .ErrRange
      else parseUint cs (n * 10 + (c.toNat - 48))
    else .error .ErrSyntax

/-- Go's `strconv.Atoi` with a 64-bit `int`: an optional sign followed by one
or more decimal digits, the value within `-2^63 .. 2^63 - 1`. -/
def strconvAtoi (s : String) : Except NumError Int :=
  match s.data with
  | [] => .error .ErrSyntax
  | c :: cs =>
    let digits := if c = '-' ∨ c = '+' then cs else c :: cs
    match digits with
    | [] => .error .ErrSyntax
    | d :: ds =>
      match parseUint (d :: ds) 0 with
      | .error err => .error err
      | .ok n =>
        if c = '-' then
          if n ≤ 2 ^ 63 then .ok (-(n : Int)) else .error .ErrRange
        else
          if n < 2 ^ 63 then .ok (n : Int) else .error .ErrRange

/-- What a handler reads from `*http.Request`: the route parameter `id`
(`chi.URLParam(r, "id")`) and the outcome of
`json.NewDecoder(r.Body).Decode(&req)`, the decoded `BookingRequest` or the
text of the decoding error. -/
structure Request where
  idParam : String
  body : Except String BookingRequest

/-- The value handed to `writeJSON` for encoding. -/
inductive Payload where
  | error (msg : String)
  | movies (ms : List Movie)
  | availability (a : Availability)
  | receipt (r : BookingReceipt)
deriving DecidableEq, Repr

/-- What `writeJSON(w, status, v)` sends. -/
structure Response where
  status : Nat
  payload : Payload
deriving DecidableEq, Repr

/-- `writeJSON` (main.go, lines 108-112). -/
def writeJSON (status : Nat) (v : Payload) : Response :=
  { status := status, payload := v }

/-- `getMovieID` (main.go, lines 103-106). -/
def getMovieID (r : Request) : Except NumError Int :=
  strconvAtoi r.idParam

/-- What a handler leaves behind: the response, the database contents, the
database calls made, and the lines written with `log.Printf`. -/
structure Handled where
  response : Response
  db : DB
  stmts : List Stmt
  logged : List String
deriving DecidableEq, Repr

/-- `API.handleListMovies` (main.go, lines 41-48). -/
def handleListMovies (db : DB) (env : ListFaults) : Handled :=
  let out := GetMovies db env
  match out.result with
  | .error _ =>
    { response := writeJSON 500 (.error "Could not fetch movies"),
      db := out.db, stmts := out.stmts, logged := [] }
  | .ok movies =>
    { response := writeJSON 200 (.movies movies), db := out.db, stmts := out.stmts, logged := [] }

/-- `API.handleGetAvailability` (main.go, lines 50-68). -/
def handleGetAvailability (db : DB) (fault : Option String) (r : Request) : Handled :=
  match getMovieID r with
  | .error _ =>
    { response := writeJSON 400 (.error "Invalid movie ID"), db := db, stmts := [], logged := [] }
  | .ok movieID =>
    let out := GetMovieAvailability db fault movieID
    match out.result with
    | .error err =>
      if err = "movie not found" then
        { response := writeJSON 404 (.error err), db := out.db, stmts := out.stmts, logged := [] }
      else
        { response := writeJSON 500 (.error err), db := out.db, stmts := out.stmts, logged := [] }
    | .ok availability =>
      { response := writeJSON 200 (.availability availability),
        db := out.db, stmts := out.stmts, logged := [] }

/-- `API.handleBookMovie` (main.go, lines 70-101). -/
def handleBookMovie (db : DB) (env : BookFaults) (r : Request) : Handled :=
  match getMovieID r with
  | .error _ =>
    { response := writeJSON 400 (.error "Invalid movie ID"), db := db, stmts := [], logged := [] }
  | .ok movieID =>
    match r.body with
    | .error _ =>
      { response := writeJSON 400 (.error "Invalid request body"),
        db := db, stmts := [], logged := [] }
    | .ok req =>
      if req.UserName = "" then
        { response := writeJSON 400 (.error "user_name is required"),
          db := db, stmts := [], logged := [] }
      else
        let out := BookSeat db env movieID req.UserName
        match out.result with
        | .error err =>
          if err = "no available seats" then
            { response := writeJSON 409 (.error err),
              db := out.db, stmts := out.stmts, logged := [] }
          else if err = "movie not found" then
            { response := writeJSON 404 (.error err),
              db := out.db, stmts := out.stmts, logged := [] }
          else
            { response := writeJSON 500 (.error "Could not process booking"),
              db := out.db, stmts := out.stmts,
              logged := ["Internal error booking seat: " ++ err] }
        | .ok receipt =>
          { response := writeJSON 201 (.receipt receipt),
            db := out.db, stmts := out.stmts, logged := [] }

/-! ## Notions used by the properties -/

/-- Number of bookings that reference the movie identity `movieID`. -/
def DB.bookingCount (db : DB) (movieID : Int) : Nat :=
  db.bookings.countP (fun b => b.MovieID == movieID)

/-- Capacity conservation: every movie row has
`available_seats = total_seats - (bookings referencing its id)`. -/
def Conserved (db : DB) : Prop :=
  ∀ m ∈ db.movies, m.AvailableSeats = m.TotalSeats - (db.bookingCount m.ID : Int)

instance (db : DB) : Decidable (Conserved db) := by
  unfold Conserved; infer_instance

/-- Whether a store method returned a value (`err == nil`). -/
def succeeded {α : Type} (r : Except String α) : Bool :=
  match r with
  | .ok _ => true
  | .error _ => false

/-- A finite sequence of `BookSeat` calls on one movie, one after another,
each with its own database failures and requester name.  Gives the final
database contents and the number of calls that returned a receipt. -/
def bookAll (db : DB) (movieID : Int) : List (BookFaults × String) → DB × Nat
  | [] => (db, 0)
  | (env, userName) :: rest =>
    let out := BookSeat db env movieID userName
    let final := bookAll out.db movieID rest
    (final.1, if succeeded out.result then final.2 + 1 else final.2)

/-! ## Sample stores and requests -/

/-- Two movies, one seat left for movie 1, which has one booking. -/
def sampleDB : DB :=
  { movies := [⟨1, "Dune", 2, 1⟩, ⟨2, "Heat", 3, 3⟩], bookings := [⟨10, 1, "ann"⟩] }

/-- Movie 1 is sold out. -/
def soldOutDB : DB :=
  { movies := [⟨1, "Dune", 1, 0⟩], bookings := [⟨10, 1, "ann"⟩] }

/-- A fresh movie with three seats and no booking. -/
def freshDB : DB :=
  { movies := [⟨1, "Dune", 3, 3⟩], bookings := [] }

/-- Only `Begin` fails. -/
def beginFails : BookFaults :=
  { noFaults 11 with beginErr := some "driver: bad connection" }

/-- Only `Commit` fails. -/
def commitFails : BookFaults :=
  { noFaults 11 with commitErr := some "pq: deadlock detected" }

/-- Five calls on one movie; the second one fails at `Commit`. -/
def fiveAttempts : List (BookFaults × String) :=
  [(noFaults 1, "a"), ({ noFaults 2 with commitErr := some "conflict" }, "b"),
   (noFaults 3, "c"), (noFaults 4, "d"), (noFaults 5, "e")]

/-! ## Facts about the SQL statements -/

theorem movieByID_decrementSeats (db : DB) (movieID id : Int) :
    (db.decrementSeats movieID).movieByID id =
      (db.movieByID id).map fun m =>
        if m.ID = movieID then { m with AvailableSeats := m.AvailableSeats - 1 } else m := by
  have hp : ((fun m : Movie => m.ID == id) ∘ fun m : Movie =>
      if m.ID = movieID then { m with AvailableSeats := m.AvailableSeats - 1 } else m)
      = fun m => m.ID == id := by
    funext m
    by_cases h : m.ID = movieID <;> simp [h]
  unfold DB.movieByID DB.decrementSeats
  simp only [List.find?_map, hp]

theorem movieByID_insertBooking (db : DB) (newID movieID id : Int) (userName : String) :
    (db.insertBooking newID movieID userName).movieByID id = db.movieByID id := rfl

theorem bookingCount_insertBooking (db : DB) (newID movieID id : Int) (userName : String) :
    (db.insertBooking newID movieID userName).bookingCount id =
      db.bookingCount id + (if movieID = id then 1 else 0) := by
  unfold DB.bookingCount DB.insertBooking
  by_cases h : movieID = id <;> simp [List.countP_append, List.countP_cons, h]

theorem conserved_decrement_insert (db : DB) (newID movieID : Int) (userName : String)
    (h : Conserved db) :
    Conserved ((db.decrementSeats movieID).insertBooking newID movieID userName) := by
  intro m' hm'
  have hmem : m' ∈ db.movies.map fun m =>
      if m.ID = movieID then { m with AvailableSeats := m.AvailableSeats - 1 } else m := hm'
  obtain ⟨m, hm, rfl⟩ := List.mem_map.mp hmem
  have hc := h m hm
  have hcount : ∀ id,
      ((db.decrementSeats movieID).insertBooking newID movieID userName).bookingCount id
        = db.bookingCount id + (if movieID = id then 1 else 0) :=
    fun id => bookingCount_insertBooking (db.decrementSeats movieID) newID movieID id userName
  by_cases hid : m.ID = movieID
  · have e : movieID = m.ID := hid.symm
    simp only [hid, if_true, hcount, Nat.cast_add, Nat.cast_one]
    rw [hid] at hc
    omega
  · have e : ¬ movieID = m.ID := fun e => hid e.symm
    simp only [hid, if_false, hcount, e, Nat.cast_add, Nat.cast_zero, add_zero]
    exact hc

/-! ## Facts about `BookSeat` -/

/-- The error texts `BookSeat` builds around a failure of a database call are
never one of its two plain errors. -/
theorem wrapped_ne (e : String) :
    ("could not start transaction: " ++ e ≠ "movie not found" ∧
     "could not get movie availability: " ++ e ≠ "movie not found" ∧
     "could not update movie seats: " ++ e ≠ "movie not found" ∧
     "could not create booking: " ++ e ≠ "movie not found" ∧
     "could not commit transaction: " ++ e ≠ "movie not found") ∧
    ("could not start transaction: " ++ e ≠ "no available seats" ∧
     "could not get movie availability: " ++ e ≠ "no available seats" ∧
     "could not update movie seats: " ++ e ≠ "no available seats" ∧
     "could not create booking: " ++ e ≠ "no available seats" ∧
     "could not commit transaction: " ++ e ≠ "no available seats") := by
  refine ⟨⟨?_, ?_, ?_, ?_, ?_⟩, ⟨?_, ?_, ?_, ?_, ?_⟩⟩ <;>
  · intro h
    have := congrArg String.data h
    simp at this

/-- The one path on which `BookSeat` returns a receipt. -/
theorem BookSeat_success (db : DB) (newID movieID : Int) (userName : String) (m : Movie)
    (hm : db.movieByID movieID = some m) (hpos : 0 < m.AvailableSeats) :
    BookSeat db (noFaults newID) movieID userName =
      { result := .ok { BookingID := newID, MovieID := movieID, UserName := userName,
                        Message := "Booking successful" },
        db := (db.decrementSeats movieID).insertBooking newID movieID userName,
        stmts := [.begin, .selectForUpdate movieID, .updateSeats movieID,
                  .insertBooking movieID userName, .commit] } := by
  have hn : ¬ m.AvailableSeats ≤ 0 := by omega
  simp [BookSeat, noFaults, DB.Begin, Tx.queryAvailableSeatsForUpdate, DB.queryAvailableSeats,
    hm, hn, Tx.execDecrementSeats, Tx.queryInsertBooking, Tx.Commit]

/-- A receipt is returned only on that path: no database call failed and the
selected row had a seat left. -/
theorem BookSeat_ok_inv (db : DB) (env : BookFaults) (movieID : Int) (userName : String)
    (rc : BookingReceipt) (h : (BookSeat db env movieID userName).result = .ok rc) :
    env = noFaults env.newID ∧ ∃ m, db.movieByID movieID = some m ∧ 0 < m.AvailableSeats := by
  obtain ⟨b, s, u, i, c, n⟩ := env
  cases b <;> cases s <;> cases u <;> cases i <;> cases c <;>
    cases hm : db.movieByID movieID <;>
    simp [BookSeat, noFaults, DB.Begin, Tx.queryAvailableSeatsForUpdate, DB.queryAvailableSeats,
      hm, Tx.execDecrementSeats, Tx.queryInsertBooking, Tx.Commit, Tx.Rollback] at h ⊢
  all_goals
    split at h <;> first
      | (simp at h; done)
      | omega

/-- Whenever `BookSeat` returns an error the database keeps its contents. -/
theorem BookSeat_error_db (db : DB) (env : BookFaults) (movieID : Int) (userName : String)
    (e : String) (h : (BookSeat db env movieID userName).result = .error e) :
    (BookSeat db env movieID userName).db = db := by
  obtain ⟨b, s, u, i, c, n⟩ := env
  cases b <;> cases s <;> cases u <;> cases i <;> cases c <;>
    cases hm : db.movieByID movieID <;>
    simp [BookSeat, DB.Begin, Tx.queryAvailableSeatsForUpdate, DB.queryAvailableSeats,
      hm, Tx.execDecrementSeats, Tx.queryInsertBooking, Tx.Commit, Tx.Rollback] at h ⊢ <;>
    split <;> simp_all

/-- Along a sequence of `BookSeat` calls on one movie whose selected row has
no negative seat count, that row loses one seat per receipt and never goes
below zero; its total is untouched. -/
theorem bookAll_row (attempts : List (BookFaults × String)) :
    ∀ (db : DB) (movieID : Int) (m : Movie), db.movieByID movieID = some m →
      0 ≤ m.AvailableSeats →
      ∃ m', (bookAll db movieID attempts).1.movieByID movieID = some m' ∧
        m'.TotalSeats = m.TotalSeats ∧
        m'.AvailableSeats = m.AvailableSeats - ((bookAll db movieID attempts).2 : Int) ∧
        0 ≤ m'.AvailableSeats := by
  induction attempts with
  | nil =>
    intro db movieID m hm h0
    exact ⟨m, hm, rfl, by simp [bookAll], h0⟩
  | cons a rest ih =>
    intro db movieID m hm h0
    obtain ⟨env, userName⟩ := a
    cases hr : (BookSeat db env movieID userName).result with
    | error e =>
      have hdb := BookSeat_error_db db env movieID userName e hr
      obtain ⟨m', h1, h2, h3, h4⟩ := ih db movieID m hm h0
      refine ⟨m', ?_, h2, ?_, h4⟩
      · simpa [bookAll, hdb] using h1
      · simpa [bookAll, hdb, hr, succeeded] using h3
    | ok rc =>
      obtain ⟨henv, m0, hm0, hpos⟩ := BookSeat_ok_inv db env movieID userName rc hr
      have hmm : m0 = m := Option.some.inj (hm0.symm.trans hm)
      subst hmm
      have hs := BookSeat_success db env.newID movieID userName m0 hm hpos
      rw [← henv] at hs
      have hrow : (BookSeat db env movieID userName).db.movieByID movieID =
          some { m0 with AvailableSeats := m0.AvailableSeats - 1 } := by
        have hid : m0.ID = movieID := by
          have := List.find?_some hm
          simpa using this
        rw [hs]
        simp [movieByID_insertBooking, movieByID_decrementSeats, hm, hid]
      obtain ⟨m', h1, h2, h3, h4⟩ :=
        ih (BookSeat db env movieID userName).db movieID _ hrow (by simp; omega)
      refine ⟨m', ?_, ?_, ?_, h4⟩
      · simpa [bookAll] using h1
      · simpa using h2
      · simp only [bookAll, hr, succeeded, if_true, Nat.cast_add, Nat.cast_one]
        simp only at h3
        omega

/-- The error "movie not found" comes from one place only: `Begin` and the
locked SELECT went through and no row was selected. -/
theorem BookSeat_not_found_inv (db : DB) (env : BookFaults) (movieID : Int) (userName : String)
    (h : (BookSeat db env movieID userName).result = .error "movie not found") :
    env.beginErr = none ∧ env.selectErr = none ∧ db.movieByID movieID = none := by
  have w1 := fun e => (wrapped_ne e).1.1
  have w2 := fun e => (wrapped_ne e).1.2.1
  have w3 := fun e => (wrapped_ne e).1.2.2.1
  have w4 := fun e => (wrapped_ne e).1.2.2.2.1
  have w5 := fun e => (wrapped_ne e).1.2.2.2.2
  obtain ⟨b, s, u, i, c, n⟩ := env
  cases b <;> cases s <;> cases u <;> cases i <;> cases c <;>
    cases hm : db.movieByID movieID <;>
    simp [BookSeat, DB.Begin, Tx.queryAvailableSeatsForUpdate, DB.queryAvailableSeats,
      hm, Tx.execDecrementSeats, Tx.queryInsertBooking, Tx.Commit, Tx.Rollback] at h ⊢
  all_goals first
    | exact absurd h (w1 _)
    | exact absurd h (w2 _)
    | skip
  all_goals
    split at h <;> simp [w3, w4, w5] at h

/-! ## The properties -/

/-- C1. Capacity conservation is an invariant of `BookSeat`: from a database
in which every movie row satisfies
`available = total - (bookings referencing its id)`, the database left by
`BookSeat` satisfies it again, for every movie id, requester name and every
combination of failures of the database calls (so whether a receipt,
"movie not found", "no available seats" or a wrapped store error is returned). -/
theorem BookSeat_preserves_conservation (db : DB) (env : BookFaults) (movieID : Int)
    (userName : String) (h : Conserved db) :
    Conserved (BookSeat db env movieID userName).db := by
  cases hr : (BookSeat db env movieID userName).result with
  | error e =>
    rw [BookSeat_error_db db env movieID userName e hr]
    exact h
  | ok rc =>
    obtain ⟨henv, m, hm, hpos⟩ := BookSeat_ok_inv db env movieID userName rc hr
    have hs := BookSeat_success db env.newID movieID userName m hm hpos
    rw [← henv] at hs
    rw [hs]
    exact conserved_decrement_insert db env.newID movieID userName h

theorem BookSeat_preserves_conservation_witness :
    Conserved sampleDB ∧
    Conserved (BookSeat sampleDB (noFaults 11) 1 "bob").db ∧
    (BookSeat sampleDB (noFaults 11) 1 "bob").db =
      { movies := [⟨1, "Dune", 2, 0⟩, ⟨2, "Heat", 3, 3⟩],
        bookings := [⟨10, 1, "ann"⟩, ⟨11, 1, "bob"⟩] } :=
  ⟨by decide,
   BookSeat_preserves_conservation sampleDB (noFaults 11) 1 "bob" (by decide),
   by decide⟩

/-- C2. Conservation over sequences: for a movie whose row has total capacity
`T ≥ 0` (the data model's range) and remaining capacity `T`, and for every
finite sequence of `BookSeat` calls on that movie applied one after another
(any requester names, any failures of the database calls), the number of calls
that return a receipt is at most `T`, and afterwards the row has the same total
and `remaining = T - (number of receipts)`.  That the movie starts without
bookings is not needed. -/
theorem bookAll_conservation (db : DB) (movieID T : Int) (m : Movie)
    (attempts : List (BookFaults × String))
    (hm : db.movieByID movieID = some m) (htotal : m.TotalSeats = T)
    (hrem : m.AvailableSeats = T) (hT : 0 ≤ T) :
    ((bookAll db movieID attempts).2 : Int) ≤ T ∧
    ∃ m', (bookAll db movieID attempts).1.movieByID movieID = some m' ∧
      m'.TotalSeats = T ∧
      m'.AvailableSeats = T - ((bookAll db movieID attempts).2 : Int) := by
  obtain ⟨m', h1, h2, h3, h4⟩ := bookAll_row attempts db movieID m hm (by omega)
  refine ⟨by omega, m', h1, by omega, by omega⟩

theorem bookAll_conservation_witness :
    (((bookAll freshDB 1 fiveAttempts).2 : Int) ≤ 3 ∧
    ∃ m', (bookAll freshDB 1 fiveAttempts).1.movieByID 1 = some m' ∧
      m'.TotalSeats = 3 ∧
      m'.AvailableSeats = 3 - ((bookAll freshDB 1 fiveAttempts).2 : Int)) ∧
    (bookAll freshDB 1 fiveAttempts).2 = 3 ∧
    (bookAll freshDB 1 fiveAttempts).1.movieByID 1 = some ⟨1, "Dune", 3, 0⟩ :=
  ⟨bookAll_conservation freshDB 1 3 ⟨1, "Dune", 3, 3⟩ _ (by decide) rfl rfl (by decide),
   by decide, by decide⟩

/-- C4. Atomicity on abort: whenever `BookSeat` returns an error (in particular
after the row was read under lock: a failure of the UPDATE, of the INSERT or of
Commit), the rows of `movies` and of `bookings` are exactly those before the
call. -/
theorem BookSeat_abort_atomic (db : DB) (env : BookFaults) (movieID : Int)
    (userName e : String) (h : (BookSeat db env movieID userName).result = .error e) :
    (BookSeat db env movieID userName).db.movies = db.movies ∧
    (BookSeat db env movieID userName).db.bookings = db.bookings := by
  rw [BookSeat_error_db db env movieID userName e h]
  exact ⟨rfl, rfl⟩

theorem BookSeat_abort_atomic_witness :
    (BookSeat sampleDB commitFails 1 "bob").result
      = .error "could not commit transaction: pq: deadlock detected" ∧
    (BookSeat sampleDB commitFails 1 "bob").stmts
      = [.begin, .selectForUpdate 1, .updateSeats 1, .insertBooking 1 "bob", .commit] ∧
    (BookSeat sampleDB commitFails 1 "bob").db.movies
      = sampleDB.movies ∧
    (BookSeat sampleDB commitFails 1 "bob").db.bookings
      = sampleDB.bookings :=
  ⟨by decide, by decide,
   BookSeat_abort_atomic sampleDB commitFails
     1 "bob" "could not commit transaction: pq: deadlock detected" (by decide)⟩

/-- C5, the claim as stated fails: movie 1 exists with remaining capacity 0,
`Begin` fails, and `BookSeat` returns the wrapped store error, not
"no available seats". -/
theorem BookSeat_exhausted_counterexample :
    soldOutDB.movieByID 1 = some ⟨1, "Dune", 1, 0⟩ ∧
    (BookSeat soldOutDB beginFails 1 "bob").result
      = .error "could not start transaction: driver: bad connection" ∧
    (BookSeat soldOutDB beginFails 1 "bob").result
      ≠ .error "no available seats" := by
  decide

/-- C5 (amended). For every database, every existing movie whose remaining
capacity is `≤ 0` and every requester name: `BookSeat` changes nothing; it
fails with "no available seats" when neither `Begin` nor the locked SELECT
fails, and with the wrapped store error when one of them does.  Conversely,
`BookSeat` returns "no available seats" only when the movie exists and its
remaining capacity is `≤ 0`. -/
theorem BookSeat_exhausted (db : DB) (env : BookFaults) (movieID : Int) (userName : String) :
    (∀ m, db.movieByID movieID = some m → m.AvailableSeats ≤ 0 →
      (BookSeat db env movieID userName).db = db ∧
      (env.beginErr = none → env.selectErr = none →
        (BookSeat db env movieID userName).result = .error "no available seats") ∧
      (∀ e, env.beginErr = some e →
        (BookSeat db env movieID userName).result
          = .error ("could not start transaction: " ++ e)) ∧
      (∀ e, env.beginErr = none → env.selectErr = some e →
        (BookSeat db env movieID userName).result
          = .error ("could not get movie availability: " ++ e))) ∧
    ((BookSeat db env movieID userName).result = .error "no available seats" →
      ∃ m, db.movieByID movieID = some m ∧ m.AvailableSeats ≤ 0) := by
  constructor
  · intro m hm hle
    refine ⟨?_, ?_, ?_, ?_⟩
    · cases hr : (BookSeat db env movieID userName).result with
      | error e => exact BookSeat_error_db db env movieID userName e hr
      | ok rc =>
        obtain ⟨_, m0, hm0, hpos⟩ := BookSeat_ok_inv db env movieID userName rc hr
        have hmm : m0 = m := Option.some.inj (hm0.symm.trans hm)
        subst hmm
        omega
    · intro hb hs
      simp [BookSeat, DB.Begin, Tx.queryAvailableSeatsForUpdate, DB.queryAvailableSeats,
        hb, hs, hm, hle, Tx.Rollback]
    · intro e hb
      simp [BookSeat, DB.Begin, hb]
    · intro e hb hs
      simp [BookSeat, DB.Begin, Tx.queryAvailableSeatsForUpdate, DB.queryAvailableSeats,
        hb, hs, Tx.Rollback]
  · intro h
    have w1 := fun e => (wrapped_ne e).2.1
    have w2 := fun e => (wrapped_ne e).2.2.1
    have w3 := fun e => (wrapped_ne e).2.2.2.1
    have w4 := fun e => (wrapped_ne e).2.2.2.2.1
    have w5 := fun e => (wrapped_ne e).2.2.2.2.2
    obtain ⟨b, s, u, i, c, n⟩ := env
    cases b <;> cases s <;> cases u <;> cases i <;> cases c <;>
      cases hm : db.movieByID movieID <;>
      simp [BookSeat, DB.Begin, Tx.queryAvailableSeatsForUpdate, DB.queryAvailableSeats,
        hm, Tx.execDecrementSeats, Tx.queryInsertBooking, Tx.Commit, Tx.Rollback] at h ⊢
    all_goals first
      | exact absurd h (w1 _)
      | exact absurd h (w2 _)
      | skip
    all_goals
      by_contra hgt
      rw [if_neg hgt] at h
      simp [w3, w4, w5] at h

theorem BookSeat_exhausted_witness :
    (BookSeat soldOutDB (noFaults 11) 1 "bob").db = soldOutDB ∧
    (BookSeat soldOutDB (noFaults 11) 1 "bob").result = .error "no available seats" :=
  ⟨((BookSeat_exhausted soldOutDB (noFaults 11) 1 "bob").1 ⟨1, "Dune", 1, 0⟩
      (by decide) (by decide)).1,
   ((BookSeat_exhausted soldOutDB (noFaults 11) 1 "bob").1 ⟨1, "Dune", 1, 0⟩
      (by decide) (by decide)).2.1 rfl rfl⟩

/-- C6. Success postcondition: for every database, every movie id whose row
exists with remaining capacity `> 0` and every requester name, when no
database call fails `BookSeat` (a) takes exactly 1 from the remaining capacity
of the rows with that id and keeps every other row of `movies` as it was,
(b) appends exactly one row to `bookings`, carrying that movie id and that
requester name, all earlier bookings unchanged, and (c) returns a receipt whose
`BookingID` is the identity the database gave to the new booking, whose
`MovieID` and `UserName` are the arguments and whose `Message` is
"Booking successful". -/
theorem BookSeat_success_postcondition (db : DB) (newID movieID : Int) (userName : String)
    (m : Movie) (hm : db.movieByID movieID = some m) (hpos : 0 < m.AvailableSeats) :
    (BookSeat db (noFaults newID) movieID userName).db.movies =
      db.movies.map (fun r =>
        if r.ID = movieID then { r with AvailableSeats := r.AvailableSeats - 1 } else r) ∧
    (BookSeat db (noFaults newID) movieID userName).db.movieByID movieID =
      some { m with AvailableSeats := m.AvailableSeats - 1 } ∧
    (∀ id, id ≠ movieID →
      (BookSeat db (noFaults newID) movieID userName).db.movieByID id = db.movieByID id) ∧
    (BookSeat db (noFaults newID) movieID userName).db.bookings =
      db.bookings ++ [{ ID := newID, MovieID := movieID, UserName := userName }] ∧
    (BookSeat db (noFaults newID) movieID userName).result =
      .ok { BookingID := newID, MovieID := movieID, UserName := userName,
            Message := "Booking successful" } := by
  rw [BookSeat_success db newID movieID userName m hm hpos]
  have hid : m.ID = movieID := by
    have := List.find?_some hm
    simpa using this
  refine ⟨rfl, ?_, ?_, rfl, rfl⟩
  · simp [movieByID_insertBooking, movieByID_decrementSeats, hm, hid]
  · intro id hne
    simp only [movieByID_insertBooking, movieByID_decrementSeats]
    cases hrow : db.movieByID id with
    | none => rfl
    | some r =>
      have hr : r.ID = id := by
        have := List.find?_some hrow
        simpa using this
      have : ¬ r.ID = movieID := fun e => hne (hr.symm.trans e)
      simp [this]

theorem BookSeat_success_postcondition_witness :
    (BookSeat sampleDB (noFaults 11) 1 "bob").db.movies =
      sampleDB.movies.map (fun r =>
        if r.ID = 1 then { r with AvailableSeats := r.AvailableSeats - 1 } else r) ∧
    (BookSeat sampleDB (noFaults 11) 1 "bob").db.movieByID 1 = some ⟨1, "Dune", 2, 1 - 1⟩ ∧
    (∀ id, id ≠ 1 →
      (BookSeat sampleDB (noFaults 11) 1 "bob").db.movieByID id = sampleDB.movieByID id) ∧
    (BookSeat sampleDB (noFaults 11) 1 "bob").db.bookings =
      sampleDB.bookings ++ [{ ID := 11, MovieID := 1, UserName := "bob" }] ∧
    (BookSeat sampleDB (noFaults 11) 1 "bob").result =
      .ok { BookingID := 11, MovieID := 1, UserName := "bob", Message := "Booking successful" } :=
  BookSeat_success_postcondition sampleDB 11 1 "bob" ⟨1, "Dune", 2, 1⟩ (by decide) (by decide)

/-- C7, the claim as stated fails for a name made of whitespace only: with the
name " " the handler calls `BookSeat`, which runs its whole transaction and
inserts a booking; the response is 201. -/
theorem handleBookMovie_whitespace_name_counterexample :
    (handleBookMovie sampleDB (noFaults 11) ⟨"1", .ok ⟨" "⟩⟩).response =
      ⟨201, .receipt ⟨11, 1, " ", "Booking successful"⟩⟩ ∧
    (handleBookMovie sampleDB (noFaults 11) ⟨"1", .ok ⟨" "⟩⟩).stmts =
      [.begin, .selectForUpdate 1, .updateSeats 1, .insertBooking 1 " ", .commit] ∧
    (handleBookMovie sampleDB (noFaults 11) ⟨"1", .ok ⟨" "⟩⟩).db.bookings =
      [⟨10, 1, "ann"⟩, ⟨11, 1, " "⟩] := by
  decide

/-- C7 (amended). Input validation: for every booking request whose requester
name is empty, `handleBookMovie` answers 400 before any unit of work begins,
with zero store interaction: no database call is made (so `BookSeat` is not
called, no row lock is taken, no booking is inserted) and the database keeps
its contents, whatever the database would have answered. -/
theorem handleBookMovie_empty_name (db : DB) (env : BookFaults) (r : Request)
    (req : BookingRequest) (hbody : r.body = .ok req) (hname : req.UserName = "") :
    (handleBookMovie db env r).response.status = 400 ∧
    (handleBookMovie db env r).stmts = [] ∧
    (handleBookMovie db env r).db = db ∧
    (∀ movieID, getMovieID r = .ok movieID →
      (handleBookMovie db env r).response = ⟨400, .error "user_name is required"⟩) := by
  unfold handleBookMovie
  cases hid : getMovieID r with
  | error e => simp [writeJSON]
  | ok movieID => simp [hbody, hname, writeJSON]

theorem handleBookMovie_empty_name_witness :
    (handleBookMovie sampleDB (noFaults 11) ⟨"1", .ok ⟨""⟩⟩).response.status = 400 ∧
    (handleBookMovie sampleDB (noFaults 11) ⟨"1", .ok ⟨""⟩⟩).stmts = [] ∧
    (handleBookMovie sampleDB (noFaults 11) ⟨"1", .ok ⟨""⟩⟩).db = sampleDB ∧
    (∀ movieID, getMovieID ⟨"1", .ok ⟨""⟩⟩ = .ok movieID →
      (handleBookMovie sampleDB (noFaults 11) ⟨"1", .ok ⟨""⟩⟩).response =
        ⟨400, .error "user_name is required"⟩) :=
  handleBookMovie_empty_name sampleDB (noFaults 11) ⟨"1", .ok ⟨""⟩⟩ ⟨""⟩ rfl rfl

/-- C8, the claim as stated fails: no movie has id 7, `Begin` fails, and
`BookSeat` returns the wrapped store error, not "movie not found"; likewise
`GetMovieAvailability` hands on the error of a failed query.  And for the
existing id 1, `GetMovieAvailability` returns "movie not found" when that is
the text of the error its query failed with. -/
theorem notFound_contract_counterexample :
    sampleDB.movieByID 7 = none ∧
    (BookSeat sampleDB beginFails 7 "bob").result
      = .error "could not start transaction: driver: bad connection" ∧
    (GetMovieAvailability sampleDB (some "driver: bad connection") 7).result
      = .error "driver: bad connection" ∧
    sampleDB.movieByID 1 = some ⟨1, "Dune", 2, 1⟩ ∧
    (GetMovieAvailability sampleDB (some "movie not found") 1).result
      = .error "movie not found" := by
  decide

/-- C8 (amended). For every database and every movie id that selects no row:
`BookSeat` leaves the database unchanged for every requester name, and fails
with "movie not found" when neither `Begin` nor the locked SELECT fails (with
the wrapped store error when one does); `GetMovieAvailability` fails with
"movie not found" when its query does not fail.  For an id whose row exists,
`BookSeat` never returns "movie not found", and `GetMovieAvailability` returns
it only by handing on a query error whose own text is "movie not found". -/
theorem notFound_contract (db : DB) (env : BookFaults) (fault : Option String) (movieID : Int)
    (userName : String) :
    (db.movieByID movieID = none →
      (BookSeat db env movieID userName).db = db ∧
      (env.beginErr = none → env.selectErr = none →
        (BookSeat db env movieID userName).result = .error "movie not found") ∧
      (∀ e, env.beginErr = some e →
        (BookSeat db env movieID userName).result
          = .error ("could not start transaction: " ++ e)) ∧
      (∀ e, env.beginErr = none → env.selectErr = some e →
        (BookSeat db env movieID userName).result
          = .error ("could not get movie availability: " ++ e)) ∧
      (fault = none →
        (GetMovieAvailability db fault movieID).result = .error "movie not found")) ∧
    (∀ m, db.movieByID movieID = some m →
      (BookSeat db env movieID userName).result ≠ .error "movie not found" ∧
      ((GetMovieAvailability db fault movieID).result = .error "movie not found" →
        fault = some "movie not found")) := by
  constructor
  · intro hm
    refine ⟨?_, ?_, ?_, ?_, ?_⟩
    · cases hr : (BookSeat db env movieID userName).result with
      | error e => exact BookSeat_error_db db env movieID userName e hr
      | ok rc =>
        obtain ⟨_, m0, hm0, _⟩ := BookSeat_ok_inv db env movieID userName rc hr
        rw [hm] at hm0
        cases hm0
    · intro hb hs
      simp [BookSeat, DB.Begin, Tx.queryAvailableSeatsForUpdate, DB.queryAvailableSeats,
        hb, hs, hm, Tx.Rollback]
    · intro e hb
      simp [BookSeat, DB.Begin, hb]
    · intro e hb hs
      simp [BookSeat, DB.Begin, Tx.queryAvailableSeatsForUpdate, DB.queryAvailableSeats,
        hb, hs, Tx.Rollback]
    · intro hf
      simp [GetMovieAvailability, DB.queryAvailableSeats, hf, hm]
  · intro m hm
    constructor
    · intro h
      have := (BookSeat_not_found_inv db env movieID userName h).2.2
      rw [hm] at this
      cases this
    · intro h
      cases fault with
      | none => simp [GetMovieAvailability, DB.queryAvailableSeats, hm] at h
      | some e =>
        simp [GetMovieAvailability, DB.queryAvailableSeats] at h
        rw [h]

theorem notFound_contract_witness :
    (BookSeat sampleDB (noFaults 11) 7 "bob").db = sampleDB ∧
    (BookSeat sampleDB (noFaults 11) 7 "bob").result = .error "movie not found" ∧
    (GetMovieAvailability sampleDB none 7).result = .error "movie not found" :=
  ⟨((notFound_contract sampleDB (noFaults 11) none 7 "bob").1 (by decide)).1,
   ((notFound_contract sampleDB (noFaults 11) none 7 "bob").1 (by decide)).2.1 rfl rfl,
   ((notFound_contract sampleDB (noFaults 11) none 7 "bob").1 (by decide)).2.2.2.2 rfl⟩

/-- C9. Failure mapping of `POST /movies/{id}/book`: `handleBookMovie` answers
400 when the id is not an integer (`strconv.Atoi` fails), the body does not
decode, or the name is empty; otherwise it answers 201 with the receipt exactly
when `BookSeat` succeeds, 404 exactly when `BookSeat` fails with
"movie not found", 409 exactly when it fails with "no available seats", and 500
exactly for every other `BookSeat` failure (a Commit failure among them).  The
status is always one of 201, 400, 404, 409, 500. -/
theorem handleBookMovie_status (db : DB) (env : BookFaults) (r : Request) :
    (((∃ e, getMovieID r = .error e) ∨ (∃ e, r.body = .error e) ∨
        (∃ req, r.body = .ok req ∧ req.UserName = "")) →
      (handleBookMovie db env r).response.status = 400) ∧
    (∀ movieID req, getMovieID r = .ok movieID → r.body = .ok req → req.UserName ≠ "" →
      (∀ rc, (BookSeat db env movieID req.UserName).result = .ok rc ↔
        (handleBookMovie db env r).response = ⟨201, .receipt rc⟩) ∧
      ((handleBookMovie db env r).response.status = 201 ↔
        ∃ rc, (BookSeat db env movieID req.UserName).result = .ok rc) ∧
      ((handleBookMovie db env r).response.status = 404 ↔
        (BookSeat db env movieID req.UserName).result = .error "movie not found") ∧
      ((handleBookMovie db env r).response.status = 409 ↔
        (BookSeat db env movieID req.UserName).result = .error "no available seats") ∧
      ((handleBookMovie db env r).response.status = 500 ↔
        ∃ e, (BookSeat db env movieID req.UserName).result = .error e ∧
          e ≠ "movie not found" ∧ e ≠ "no available seats") ∧
      (∀ e, (BookSeat db env movieID req.UserName).result
          = .error ("could not commit transaction: " ++ e) →
        (handleBookMovie db env r).response.status = 500)) ∧
    ((handleBookMovie db env r).response.status = 201 ∨
      (handleBookMovie db env r).response.status = 400 ∨
      (handleBookMovie db env r).response.status = 404 ∨
      (handleBookMovie db env r).response.status = 409 ∨
      (handleBookMovie db env r).response.status = 500) := by
  refine ⟨?_, ?_, ?_⟩
  · rintro (⟨e, h⟩ | ⟨e, h⟩ | ⟨req, h, hn⟩)
    · simp [handleBookMovie, h, writeJSON]
    · cases hid : getMovieID r <;> simp [handleBookMovie, h, hid, writeJSON]
    · cases hid : getMovieID r <;> simp [handleBookMovie, h, hn, hid, writeJSON]
  · intro movieID req hid hbody hname
    have w := (wrapped_ne)
    cases hres : (BookSeat db env movieID req.UserName).result with
    | ok rc => simp [handleBookMovie, hid, hbody, hname, hres, writeJSON, eq_comm]
    | error e =>
      by_cases h1 : e = "no available seats"
      · subst h1
        simp [handleBookMovie, hid, hbody, hname, hres, writeJSON]
        intro e h
        exact absurd h.symm (w e).2.2.2.2.2
      · by_cases h2 : e = "movie not found"
        · subst h2
          simp [handleBookMovie, hid, hbody, hname, hres, writeJSON]
          intro e h
          exact absurd h.symm (w e).1.2.2.2.2
        · simp [handleBookMovie, hid, hbody, hname, hres, writeJSON, h1, h2]
  · cases hid : getMovieID r with
    | error e => simp [handleBookMovie, hid, writeJSON]
    | ok movieID =>
      cases hbody : r.body with
      | error e => simp [handleBookMovie, hid, hbody, writeJSON]
      | ok req =>
        by_cases hname : req.UserName = ""
        · simp [handleBookMovie, hid, hbody, hname, writeJSON]
        · cases hres : (BookSeat db env movieID req.UserName).result with
          | ok rc => simp [handleBookMovie, hid, hbody, hname, hres, writeJSON]
          | error e =>
            by_cases h1 : e = "no available seats"
            · simp [handleBookMovie, hid, hbody, hname, hres, writeJSON, h1]
            · by_cases h2 : e = "movie not found"
              · simp [handleBookMovie, hid, hbody, hname, hres, writeJSON, h2]
              · simp [handleBookMovie, hid, hbody, hname, hres, writeJSON, h1, h2]

theorem handleBookMovie_status_witness :
    (handleBookMovie sampleDB commitFails
        ⟨"1", .ok ⟨"bob"⟩⟩).response.status = 500 ∧
    (handleBookMovie sampleDB (noFaults 11) ⟨"7", .ok ⟨"bob"⟩⟩).response.status = 404 ∧
    (handleBookMovie soldOutDB (noFaults 11) ⟨"1", .ok ⟨"bob"⟩⟩).response.status = 409 ∧
    (handleBookMovie sampleDB (noFaults 11) ⟨"1", .ok ⟨"bob"⟩⟩).response =
      ⟨201, .receipt ⟨11, 1, "bob", "Booking successful"⟩⟩ ∧
    (handleBookMovie sampleDB (noFaults 11) ⟨"one", .ok ⟨"bob"⟩⟩).response.status = 400 :=
  ⟨((handleBookMovie_status sampleDB commitFails
        ⟨"1", .ok ⟨"bob"⟩⟩).2.1 1 ⟨"bob"⟩ (by decide) rfl (by decide)).2.2.2.2.2
      "pq: deadlock detected" (by decide),
   ((handleBookMovie_status sampleDB (noFaults 11) ⟨"7", .ok ⟨"bob"⟩⟩).2.1 7 ⟨"bob"⟩
      (by decide) rfl (by decide)).2.2.1.mpr (by decide),
   ((handleBookMovie_status soldOutDB (noFaults 11) ⟨"1", .ok ⟨"bob"⟩⟩).2.1 1 ⟨"bob"⟩
      (by decide) rfl (by decide)).2.2.2.1.mpr (by decide),
   (((handleBookMovie_status sampleDB (noFaults 11) ⟨"1", .ok ⟨"bob"⟩⟩).2.1 1 ⟨"bob"⟩
      (by decide) rfl (by decide)).1 ⟨11, 1, "bob", "Booking successful"⟩).mp (by decide),
   (handleBookMovie_status sampleDB (noFaults 11) ⟨"one", .ok ⟨"bob"⟩⟩).1
      (Or.inl ⟨.ErrSyntax, by decide⟩)⟩

/-- C10, at `handleGetAvailability`: two store failures that are neither
"movie not found" nor "no available seats" get two different 500 responses,
each carrying the text of the internal error. -/
theorem handleGetAvailability_leaks_fault_text :
    (handleGetAvailability sampleDB (some "pq: password authentication failed for user postgres")
        ⟨"1", .error "EOF"⟩).response =
      ⟨500, .error "pq: password authentication failed for user postgres"⟩ ∧
    (handleGetAvailability sampleDB (some "dial tcp 127.0.0.1:5432: connect: connection refused")
        ⟨"1", .error "EOF"⟩).response =
      ⟨500, .error "dial tcp 127.0.0.1:5432: connect: connection refused"⟩ ∧
    (handleGetAvailability sampleDB (some "pq: password authentication failed for user postgres")
        ⟨"1", .error "EOF"⟩).response ≠
    (handleGetAvailability sampleDB (some "dial tcp 127.0.0.1:5432: connect: connection refused")
        ⟨"1", .error "EOF"⟩).response := by
  decide

/-- The sibling path in `handleBookMovie`: every `BookSeat` failure other than
the two plain ones gets the same generic 500 response; the error text only
goes to the log. -/
theorem handleBookMovie_fault_generic (db : DB) (env : BookFaults) (r : Request)
    (movieID : Int) (req : BookingRequest) (e : String)
    (hid : getMovieID r = .ok movieID) (hbody : r.body = .ok req) (hname : req.UserName ≠ "")
    (hres : (BookSeat db env movieID req.UserName).result = .error e)
    (h1 : e ≠ "no available seats") (h2 : e ≠ "movie not found") :
    (handleBookMovie db env r).response = ⟨500, .error "Could not process booking"⟩ ∧
    (handleBookMovie db env r).logged = ["Internal error booking seat: " ++ e] := by
  simp [handleBookMovie, hid, hbody, hname, hres, writeJSON, h1, h2]

/-- The sibling path in `handleListMovies`: every `GetMovies` failure gets the
same generic 500 response. -/
theorem handleListMovies_fault_generic (db : DB) (env : ListFaults) (e : String)
    (hres : (GetMovies db env).result = .error e) :
    (handleListMovies db env).response = ⟨500, .error "Could not fetch movies"⟩ := by
  simp [handleListMovies, hres, writeJSON]

end MovieBooking
